import Mathlib

/-!
Shallow embedding of the Deep Lake vector-store facade and its filtering
utilities, translated from
`deeplake/core/vectorstore/deeplake_vectorstore.py` and
`deeplake/core/vectorstore/vector_search/filter/filter.py`.

Conventions of the embedding:
* Python dicts become association lists (`List (String × _)`); dict lookup
  finds the first matching key (Python dicts have unique keys).
* Python exceptions become `Except PyErr`; each raise site keeps the exact
  message of the source where the message is built by the source itself.
* Python floats appear only as the constant score `1.0`, modelled as the
  rational `1`.
* Literal apostrophes, backticks and braces inside string literals are
  written with `\x27`, `\x60`, `\x7b`, `\x7d` escapes.
-/

namespace DeepLake

/-- A metadata value stored under a key of a json-typed tensor, and the value
type of a structured filter. The source renders strings single-quoted and
every other value by plain `str` formatting; the filters of this code base
use strings and integers. -/
inductive FValue where
  | str (s : String)
  | int (n : Int)
deriving DecidableEq, Repr

/-- The structured value of one json-typed tensor for one row:
a mapping key ↦ value (`x[tensor].data()["value"]` in the source). -/
abbrev Metadata := List (String × FValue)

/-- A structured filter `{tensor: {key: value}}`. -/
abbrev Filter := List (String × Metadata)

/-- The argument `x` of `dp_filter_python`: per its annotation a dict mapping
tensor names to the row's structured values; `len(x)` is its key count. -/
abbrev JRow := List (String × Metadata)

/-- Dict lookup: first entry whose key equals `k` (Python dict access). -/
def alookup (k : String) : List (String × α) → Option α
  | [] => none
  | kv :: rest => if kv.1 = k then some kv.2 else alookup k rest

/-- Python exceptions raised (or modelled) by the translated code. -/
inductive PyErr where
  | valueError (msg : String)
  | keyError (key : String)
  | attributeError (msg : String)
  | typeError (msg : String)
  | notImplementedError (msg : String)
  | unboundLocalError (name : String)
  | importError (msg : String)
deriving DecidableEq, Repr

instance {ε α : Type} [DecidableEq ε] [DecidableEq α] : DecidableEq (Except ε α)
  | .error e, .error f =>
    if h : e = f then .isTrue (by rw [h]) else .isFalse (by intro hh; cases hh; exact h rfl)
  | .error _, .ok _ => .isFalse (by intro h; cases h)
  | .ok _, .error _ => .isFalse (by intro h; cases h)
  | .ok a, .ok b =>
    if h : a = b then .isTrue (by rw [h]) else .isFalse (by intro hh; cases hh; exact h rfl)

/-- The value Python's `dp_filter_python` returns: its `result` variable holds
either the initial list `[1] * len(x)` or a bool produced by `and`. -/
inductive PyResult where
  | list (l : List Nat)
  | bool (b : Bool)
deriving DecidableEq, Repr

/-- Python truthiness of the returned value: a list is truthy iff non-empty,
a bool is itself. `view.filter` keeps a row iff the predicate's return value
is truthy. -/
def PyResult.truthy : PyResult → Bool
  | .list l => !l.isEmpty
  | .bool b => b

/-- Check `all(k in metadata and v == metadata[k] for k, v in kvs)` from the
body of `dp_filter_python`. -/
def metaCheck (metadata : Metadata) (kvs : List (String × FValue)) : Bool :=
  kvs.all (fun kv => decide (alookup kv.1 metadata = some kv.2))

/-- The loop of `dp_filter_python`: for each filter entry, load
`metadata = x[tensor].data()["value"]` (a `KeyError`, modelled as `none`, when
the tensor is absent — the load happens even when `result` is already falsy),
then `result = result and all(...)`, where Python's `and` returns `result`
unchanged when it is falsy. -/
def dpLoop (x : JRow) : Filter → PyResult → Option PyResult
  | [], result => some result
  | tk :: rest, result =>
    match alookup tk.1 x with
    | none => none
    | some metadata =>
      dpLoop x rest (if result.truthy then PyResult.bool (metaCheck metadata tk.2) else result)

/-- Translation of `dp_filter_python(x, filter)`: `result = [1] * len(x)`
followed by the loop above; `none` models the `KeyError` on a missing tensor. -/
def dp_filter_python (x : JRow) (filter : Filter) : Option PyResult :=
  dpLoop x filter (.list (List.replicate x.length 1))

/-- One row of the backing dataset, carrying the columns the translated code
reads: the `text` column, the `ids` column, the json-typed tensors addressed
by structured filters, and the embedding column. -/
structure Row where
  text : String
  idv : String
  json : JRow
  emb : List Rat
deriving DecidableEq, Repr

/-- A view: rows paired with their original dataset indices
(`view.sample_indices` is the list of first components). -/
abbrev ViewT := List (Nat × Row)

/-- Python substring test `needle in hay`, on character lists:
does `hay` start with `needle`? -/
def startsWithChars : List Char → List Char → Bool
  | [], _ => true
  | _ :: _, [] => false
  | n :: ns, h :: hs => (n = h) && startsWithChars ns hs

/-- Python substring test `needle in hay` (empty needle always matches). -/
def containsChars (hay needle : List Char) : Bool :=
  match hay with
  | [] => needle.isEmpty
  | _ :: rest => startsWithChars needle hay || containsChars rest needle

/-- Python `query in x["text"].data()["value"]` for one row. -/
def textMatches (query : String) (r : Row) : Bool :=
  containsChars r.text.data query.data

/-- Translation of `exact_text_search(view, query)`. The source returns the
3-tuple `(view, scores, index)`; the trailing `Bool` makes the `always_warn`
side effect of the zero-match branch explicit (true iff the warning was
emitted). Scores are `[1.0] * len(view)` with `1.0` modelled as the rational
`1`. -/
def exact_text_search (view : ViewT) (query : String) :
    ViewT × List Rat × Option (List Nat) × Bool :=
  let fview := view.filter (fun ir => textMatches query ir.2)
  let scores : List Rat := List.replicate fview.length 1
  if fview.length = 0 then
    (fview, scores, none, true)
  else
    (fview, scores, some (fview.map Prod.fst), false)

/-- Python `==` between a `str` and an `int` never holds (no error, just
`False`); `get_ids_that_does_not_exist` compares requested id strings with
the integer row indices collected from `view.sample_indices`. -/
def pyStrIntEq (_ : String) (_ : Nat) : Bool := false

/-- Translation of `get_ids_that_does_not_exist(ids, filtered_ids)`:
appends `` `id`, `` for every requested id not a member of `filtered_ids`
(a membership test between strings and integers), then strips the trailing
two characters. -/
def get_ids_that_does_not_exist (ids : List String) (filtered_ids : List Nat) : String :=
  (ids.foldl
    (fun acc id =>
      if filtered_ids.any (pyStrIntEq id) then acc
      else acc ++ "\x60" ++ id ++ "\x60, ")
    "").dropRight 2

/-- Translation of `get_id_indices(dataset, ids)`: filter the dataset to rows
whose `ids` value is a member of `ids`, collect `sample_indices`, and raise
`ValueError` when the counts differ. -/
def get_id_indices (dataset : List Row) (ids : List String) : Except PyErr (List Nat) :=
  let view := dataset.enum.filter (fun ir => ids.contains ir.2.idv)
  let filtered_ids := view.map Prod.fst
  if filtered_ids.length ≠ ids.length then
    .error (.valueError ("The following ids: " ++ get_ids_that_does_not_exist ids filtered_ids
      ++ " does not exist in the dataset"))
  else
    .ok filtered_ids

/-- Python `repr`/`str` of an `FValue` inside a dict display. -/
def pyReprFValue : FValue → String
  | .str s => "\x27" ++ s ++ "\x27"
  | .int n => toString n

/-- Python `str` of an inner filter dict, e.g. `{'k': 'v'}`. -/
def pyReprMetadata (m : Metadata) : String :=
  "\x7b" ++ String.intercalate ", "
    (m.map (fun kv => "\x27" ++ kv.1 ++ "\x27: " ++ pyReprFValue kv.2)) ++ "\x7d"

/-- Python `str` of the filter argument as it is interpolated into the
`get_filtered_ids` error message (`None` when absent). -/
def pyReprOptFilter : Option Filter → String
  | none => "None"
  | some d =>
    "\x7b" ++ String.intercalate ", "
      (d.map (fun tk => "\x27" ++ tk.1 ++ "\x27: " ++ pyReprMetadata tk.2)) ++ "\x7d"

/-- Apply `partial(dp_filter_python, filter=filter)` to every row of a view,
as `dataset.filter` does. A `filter` of `None` raises `AttributeError` at the
first row (`None.keys()`); a missing tensor raises `KeyError`; both abort the
whole filtering call. -/
def viewFilterDp (filter : Option Filter) : ViewT → Except PyErr ViewT
  | [] => .ok []
  | ir :: rest =>
    match filter with
    | none => .error (.attributeError "NoneType object has no attribute keys")
    | some d =>
      match dp_filter_python ir.2.json d with
      | none => .error (.keyError "tensor")
      | some r =>
        match viewFilterDp filter rest with
        | .error e => .error e
        | .ok tail => .ok (if r.truthy then ir :: tail else tail)

/-- Translation of `get_filtered_ids(dataset, filter)`: predicate-filter the
whole dataset, collect `sample_indices`, and raise `ValueError` (with the
filter interpolated into the message) when no row matched. -/
def get_filtered_ids (dataset : List Row) (filter : Option Filter) : Except PyErr (List Nat) :=
  match viewFilterDp filter dataset.enum with
  | .error e => .error e
  | .ok view =>
    let filtered_ids := view.map Prod.fst
    if filtered_ids.isEmpty then
      .error (.valueError (pyReprOptFilter filter ++ " does not exist in the dataset."))
    else
      .ok filtered_ids

/-- Python truthiness of the `filter` argument of `get_converted_ids`:
`None` and the empty dict are falsy. -/
def pyTruthyFilter : Option Filter → Bool
  | none => false
  | some d => !d.isEmpty

/-- Translation of `get_converted_ids(dataset, filter, ids)`:
`if ids and filter: raise ValueError(...)`, then dispatch on `if ids:`. -/
def get_converted_ids (dataset : List Row) (filter : Option Filter) (ids : List String) :
    Except PyErr (List Nat) :=
  if !ids.isEmpty && pyTruthyFilter filter then
    .error (.valueError "Either filter or ids should be specified.")
  else if !ids.isEmpty then
    get_id_indices dataset ids
  else
    get_filtered_ids dataset filter

/-- The `filter` argument of `search`: a structured dict or a callable
predicate over a row (`deeplake.filter`-compatible function). -/
inductive FilterArg where
  | dict (d : Filter)
  | callable (p : Row → Bool)

/-- Python literal rendering inside the tql fragment:
`f"'{value}'" if type(value) == str else f"{value}"`. -/
def renderVal : FValue → String
  | .str s => "\x27" ++ s ++ "\x27"
  | .int n => toString n

/-- One appended piece `f"{tensor}['{key}'] == {val_str} and "`. -/
def tqlPiece (tensor key : String) (v : FValue) : String :=
  tensor ++ "[\x27" ++ key ++ "\x27] == " ++ renderVal v ++ " and "

/-- The accumulation loop of `attribute_based_filtering_tql` followed by the
`tql_filter[:-5]` strip (Python slicing: the whole string vanishes when it is
shorter than five characters, which only happens when it is empty). -/
def tqlFilterString (d : Filter) : String :=
  (d.foldl (fun acc tk => tk.2.foldl (fun acc2 kv => acc2 ++ tqlPiece tk.1 kv.1 kv.2) acc) "").dropRight 5

/-- Translation of `attribute_based_filtering_tql(view, logger, filter=None,
debug_mode=False)`. The `logger`/`debug_mode` parameters only emit a debug
log and are dropped from the embedding; the returned view is the argument
unmodified, and a non-dict (callable) filter leaves the fragment empty. -/
def attribute_based_filtering_tql (view : ViewT) (filter : Option FilterArg) : ViewT × String :=
  match filter with
  | none => (view, "")
  | some (.dict d) => (view, tqlFilterString d)
  | some (.callable _) => (view, "")

/-- Translation of `attribute_based_filtering_python(view, filter)`: a dict
is wrapped in `partial(dp_filter_python, filter=filter)`, a callable is
applied directly, an absent filter returns the view unchanged. -/
def attribute_based_filtering_python (view : ViewT) (filter : Option FilterArg) :
    Except PyErr ViewT :=
  match filter with
  | none => .ok view
  | some (.dict d) => viewFilterDp (some d) view
  | some (.callable p) => .ok (view.filter (fun ir => p ir.2))

/-- Python ASCII lowercasing of a character (`str.lower`). -/
def pyLowerChar (c : Char) : Char :=
  if 'A' ≤ c && c ≤ 'Z' then Char.ofNat (c.toNat + 32) else c

/-- Python `distance_metric.lower()`. -/
def pyLower (s : String) : String := ⟨s.data.map pyLowerChar⟩

/-- An embedding vector (numeric entries modelled as rationals). -/
abbrev Emb := List Rat

/-- An embedding function (prompt to vector). -/
abbrev EmbFun := String → Emb

/-- Modelled from the spec: the Execution-Option Resolver's runtime
descriptor, the internal value `utils.get_runtime_from_exec_option` derives
from the execution-option string (the module is not under `src/`). -/
structure Runtime where
  option : String
deriving DecidableEq, Repr

/-- Modelled from the spec: `utils.get_runtime_from_exec_option` maps the
requested execution mode string to its runtime descriptor (§4.4). -/
def get_runtime_from_exec_option (exec_option : String) : Runtime :=
  ⟨exec_option⟩

/-- Modelled from the spec: `utils.check_indra_installation` raises the
standardized capability-missing error, naming the execution option, when a
delegated option requires the native engine and it is not installed (§4.4,
§4.7; the module is not under `src/`). -/
def check_indra_installation (exec_option : String) (indra_installed : Bool) :
    Except PyErr Unit :=
  if (exec_option = "compute_engine" || exec_option = "tensor_db") && !indra_installed then
    .error (.importError ("indra is not installed; required for exec_option=" ++ exec_option))
  else
    .ok ()

/-- Modelled from the spec: `dataset_utils.get_embedding` computes a query
embedding from the prompt via the embedding function, or passes through an
already-computed embedding, and fails when neither source is resolvable
(§4.3; the module is not under `src/`). -/
def get_embedding (embedding : Option Emb) (prompt : Option String)
    (embedding_function : Option EmbFun) : Except PyErr Emb :=
  match embedding with
  | some e => .ok e
  | none =>
    match embedding_function, prompt with
    | some f, some p => .ok (f p)
    | _, _ => .error (.valueError "Either an embedding or an embedding function with a prompt must be specified.")

/-- Modelled from the spec: `dataset_utils.fetch_embeddings` fetches the
embedding column's values for a view (§4.3; the module is not under `src/`).
Rows of this embedding carry a single embedding column, so the tensor-name
argument selects it trivially. -/
def fetch_embeddings (view : ViewT) (embedding_tensor : String) : List Emb :=
  let _ := embedding_tensor
  view.map (fun ir => ir.2.emb)

/-- The value `search` returns, by which downstream engine received the call:
either `vectorstore.python_vector_search` or `vectorstore.vector_search`
applied to exactly the arguments the facade passes (both engines are outside
the translated call-flow decisions the claims are about). -/
inductive SearchResult where
  | pythonSearch (view : ViewT) (queryEmbedding : Emb) (embeddings : List Emb)
      (metric : String) (k : Nat)
  | delegated (queryEmbedding : Emb) (metric : String) (view : ViewT) (k : Nat)
      (tqlString : Option String) (tqlFilter : String) (embeddingTensor : String)
      (runtime : Runtime)
deriving DecidableEq

/-- Python truthiness of the optional `query` string (used by
`if query and filter:`). -/
def pyTruthyQuery : Option String → Bool
  | none => false
  | some s => !s.isEmpty

/-- Python truthiness of the `filter` argument of `search`: `None` and an
empty dict are falsy, a callable is truthy. -/
def pyTruthyFilterArg : Option FilterArg → Bool
  | none => false
  | some (.dict d) => !d.isEmpty
  | some (.callable _) => true

/-- The source's dead check `type(filter) == Callable`: the runtime type of a
value is never the `typing.Callable` object, so this Python comparison is
`False` for every argument, callables included. -/
def typeEqCallable (filter : Option FilterArg) : Bool :=
  let _ := filter
  false

/-- Translation of `exec_option = exec_option or self._exec_option`
(line 158): Python `or` keeps the argument unless it is falsy
(`None` or the empty string). -/
def resolveExecOption (arg : Option String) (instOption : String) : String :=
  match arg with
  | none => instOption
  | some s => if s = "" then instOption else s

/-- The declared default of the `exec_option` parameter of `search`
(`exec_option: Optional[str] = "python"`, line 129): a call that does not
supply the argument passes this value. -/
def search_exec_option_default : Option String := some "python"

/-- The state a `DeepLakeVectorStore` instance carries into `search`:
the backing dataset, the stored embedding function (unused by `search`,
which only reads its own argument), and `self._exec_option`. -/
structure VectorStoreModel where
  dataset : List Row
  embedding_function : Option EmbFun
  exec_option : String

/-- The `exec_option == "python"` branch of `search` (lines 175–196): reject
a raw tql query, apply attribute-based predicate filtering to the dataset,
fetch the embedding column, and call `python_vector_search` — whose
`query_embedding` argument raises `UnboundLocalError` when the exact-text
branch left `query_emb` unassigned. -/
def searchPython (execOpt : String) (dataset : List Row) (queryEmb : Option Emb)
    (k : Nat) (distance_metric : String) (query : Option String)
    (filter : Option FilterArg) (embedding_tensor : String) : Except PyErr SearchResult :=
  if query.isSome then
    .error (.notImplementedError
      ("User-specified TQL queries are not support for exec_option=" ++ execOpt ++ " "))
  else
    match attribute_based_filtering_python dataset.enum filter with
    | .error e => .error e
    | .ok view =>
      let embeddings := fetch_embeddings view embedding_tensor
      match queryEmb with
      | none => .error (.unboundLocalError "query_emb")
      | some qe => .ok (.pythonSearch view qe embeddings (pyLower distance_metric) k)

/-- The delegated branch of `search` (lines 197–224): the dead
`type(filter) == Callable` check, the `query and filter` check, the indra
capability check, tql translation, and the call to `vector_search`.
The source passes `filter` as the second positional argument of
`attribute_based_filtering_tql`, which is its `logger` parameter, so the
`filter` parameter keeps its default `None` there. -/
def searchDelegated (execOpt : String) (indraInstalled : Bool) (dataset : List Row)
    (queryEmb : Option Emb) (k : Nat) (distance_metric : String) (query : Option String)
    (filter : Option FilterArg) (embedding_tensor : String) : Except PyErr SearchResult :=
  if typeEqCallable filter then
    .error (.notImplementedError
      ("UDF filter function are not supported with exec_option=" ++ execOpt))
  else if pyTruthyQuery query && pyTruthyFilterArg filter then
    .error (.notImplementedError "query and filter parameters cannot be specified simultaneously.")
  else
    match check_indra_installation execOpt indraInstalled with
    | .error e => .error e
    | .ok _ =>
      let vt := attribute_based_filtering_tql dataset.enum none
      match queryEmb with
      | none => .error (.unboundLocalError "query_emb")
      | some qe =>
        .ok (.delegated qe (pyLower distance_metric) vt.1 k query vt.2 embedding_tensor
          (get_runtime_from_exec_option execOpt))

/-- Translation of `DeepLakeVectorStore.search` (lines 120–224).
`indraInstalled` stands for the module flag `_INDRA_INSTALLED`. When neither
an embedding nor an embedding function is supplied, the source calls
`exact_text_search(self.dataset, prompt)` and binds its triple, but does not
return: control continues into the ranking branches with the local
`query_emb` never assigned (its use later raises `UnboundLocalError`). With a
`None` prompt the substring test `query in ...` raises `TypeError` on the
first row, so only a non-empty dataset reaches it. -/
def DeepLakeVectorStore.search (store : VectorStoreModel) (indraInstalled : Bool)
    (prompt : Option String) (embedding_function : Option EmbFun) (embedding : Option Emb)
    (k : Nat) (distance_metric : String) (query : Option String) (filter : Option FilterArg)
    (exec_option : Option String) (embedding_tensor : String) : Except PyErr SearchResult :=
  let execOpt := resolveExecOption exec_option store.exec_option
  if !(execOpt = "python" || execOpt = "compute_engine" || execOpt = "tensor_db") then
    .error (.valueError
      "Invalid \x60exec_option\x60 it should be either \x60python\x60, \x60compute_engine\x60 or \x60tensor_db\x60.")
  else
    let step : Except PyErr (Option Emb) :=
      if embedding_function.isNone && embedding.isNone then
        match prompt with
        | some p =>
          let _ := exact_text_search store.dataset.enum p
          .ok none
        | none =>
          if store.dataset.isEmpty then .ok none
          else .error (.typeError "\x27in <string>\x27 requires string as left operand, not NoneType")
      else
        match get_embedding embedding prompt embedding_function with
        | .error e => .error e
        | .ok qe => .ok (some qe)
    match step with
    | .error e => .error e
    | .ok queryEmb =>
      if execOpt = "python" then
        searchPython execOpt store.dataset queryEmb k distance_metric query filter embedding_tensor
      else
        searchDelegated execOpt indraInstalled store.dataset queryEmb k distance_metric query
          filter embedding_tensor

/-- A fixed sample row used by the concrete theorems below. -/
def row0 : Row := ⟨"hello world", "a", [], [1, 0]⟩

/-- Plain concatenation of a list of strings. -/
def concatStrings : List String → String
  | [] => ""
  | s :: rest => s ++ concatStrings rest

/-- The query-language fragment as the specification words it: concatenate,
for every tensor and every key/value pair, the piece
`<tensor>['<key>'] == <literal> and ` (string literals single-quoted, other
values in plain textual form), then strip the trailing `" and "`
(5 characters). -/
def specTqlFragment (d : Filter) : String :=
  (concatStrings (d.map (fun tk =>
    concatStrings (tk.2.map (fun kv => tqlPiece tk.1 kv.1 kv.2))))).dropRight 5

theorem foldl_append_concat (g : α → String) (l : List α) (acc : String) :
    l.foldl (fun a x => a ++ g x) acc = acc ++ concatStrings (l.map g) := by
  induction l generalizing acc with
  | nil => simp [concatStrings, String.append_empty]
  | cons x xs ih =>
    rw [List.foldl_cons, ih, List.map_cons, concatStrings, String.append_assoc]

theorem tql_foldl_concat (d : Filter) (acc : String) :
    d.foldl (fun acc2 tk => tk.2.foldl (fun a kv => a ++ tqlPiece tk.1 kv.1 kv.2) acc2) acc
      = acc ++ concatStrings (d.map (fun tk =>
          concatStrings (tk.2.map (fun kv => tqlPiece tk.1 kv.1 kv.2)))) := by
  induction d generalizing acc with
  | nil => rw [List.foldl_nil, List.map_nil]; exact (String.append_empty acc).symm
  | cons tk rest ih =>
    rw [List.foldl_cons, ih,
      foldl_append_concat (fun kv => tqlPiece tk.1 kv.1 kv.2) tk.2 acc, List.map_cons]
    simp only [concatStrings]
    rw [String.append_assoc]

theorem tqlFilterString_eq_spec (d : Filter) : tqlFilterString d = specTqlFragment d := by
  unfold tqlFilterString specTqlFragment
  rw [tql_foldl_concat, String.empty_append]

theorem dpLoop_characterization (x : JRow) (f : Filter) :
    ∀ (acc : PyResult), (∀ tk ∈ f, (alookup tk.1 x).isSome) →
      ∃ r, dpLoop x f acc = some r ∧
        r.truthy = (acc.truthy &&
          f.all (fun tk => ((alookup tk.1 x).map (fun m => metaCheck m tk.2)).getD false)) := by
  induction f with
  | nil => exact fun acc _ => ⟨acc, rfl, by simp⟩
  | cons tk rest ih =>
    intro acc h
    obtain ⟨m, hm⟩ := Option.isSome_iff_exists.mp (h tk (List.mem_cons_self tk rest))
    obtain ⟨r, hr, ht⟩ :=
      ih (if acc.truthy then PyResult.bool (metaCheck m tk.2) else acc)
        (fun tk2 h2 => h tk2 (List.mem_cons_of_mem tk h2))
    refine ⟨r, ?_, ?_⟩
    · simp only [dpLoop, hm]
      exact hr
    · rw [ht, List.all_cons, hm]
      simp only [Option.map_some', Option.getD_some]
      cases hacc : acc.truthy with
      | false =>
        rw [if_neg Bool.false_ne_true, hacc, Bool.false_and, Bool.false_and]
      | true =>
        rw [if_pos rfl, Bool.true_and]
        rfl

/-- C1: with neither an embedding nor an embedding function supplied, the
source computes an exact-text result (here: matching index 0) but `search`
does not return it — execution continues into the ranking path and fails with
`UnboundLocalError` on the never-assigned `query_emb`. -/
theorem search_no_embedding_falls_through :
    (exact_text_search [(0, row0)] "hello").2.2.1 = some [0] ∧
    DeepLakeVectorStore.search ⟨[row0], none, "python"⟩ true (some "hello") none none 4 "L2"
        none none (some "python") "embedding"
      = .error (.unboundLocalError "query_emb") :=
  ⟨by decide, by decide⟩

/-- C2: `attribute_based_filtering_tql` on a dict filter returns the view
unmodified together with the fragment obtained by concatenating
`<tensor>['<key>'] == <literal> and ` for every tensor and key/value pair
(strings single-quoted, others plain) with the trailing five characters
stripped; the worked example produces `a['k'] == 'v' and b['k2'] == 2`, and
an absent filter produces the empty string. -/
theorem attribute_based_filtering_tql_spec :
    (∀ (view : ViewT) (d : Filter),
      attribute_based_filtering_tql view (some (.dict d)) = (view, specTqlFragment d)) ∧
    (∀ view : ViewT, attribute_based_filtering_tql view none = (view, "")) ∧
    attribute_based_filtering_tql []
        (some (.dict [("a", [("k", .str "v")]), ("b", [("k2", .int 2)])]))
      = ([], "a[\x27k\x27] == \x27v\x27 and b[\x27k2\x27] == 2") := by
  refine ⟨fun view d => ?_, fun _ => rfl, by decide⟩
  show (view, tqlFilterString d) = (view, specTqlFragment d)
  rw [tqlFilterString_eq_spec]

/-- C3: for a row with at least one tensor whose filter names only present
tensors, `dp_filter_python` returns a value that is truthy — keeps the
row — iff every named tensor satisfies every listed key/value constraint
(logical AND across tensors and keys). -/
theorem dp_filter_python_and_semantics (x : JRow) (f : Filter)
    (hx : x ≠ [])
    (hmem : ∀ tk ∈ f, (alookup tk.1 x).isSome) :
    ∃ r, dp_filter_python x f = some r ∧
      (r.truthy = true ↔
        ∀ t kvs, (t, kvs) ∈ f → ∀ m, alookup t x = some m →
          ∀ k v, (k, v) ∈ kvs → alookup k m = some v) := by
  obtain ⟨r, hr, ht⟩ := dpLoop_characterization x f (.list (List.replicate x.length 1)) hmem
  refine ⟨r, hr, ?_⟩
  have hinit : (PyResult.list (List.replicate x.length 1)).truthy = true := by
    cases x with
    | nil => exact absurd rfl hx
    | cons a l => rfl
  rw [ht, hinit, Bool.true_and, List.all_eq_true]
  constructor
  · intro hall t kvs htk m hm k v hkv
    have h1 := hall (t, kvs) htk
    rw [hm, Option.map_some', Option.getD_some] at h1
    simp only [metaCheck] at h1
    exact of_decide_eq_true (List.all_eq_true.mp h1 (k, v) hkv)
  · intro hcond tk htk
    obtain ⟨m, hm⟩ := Option.isSome_iff_exists.mp (hmem tk htk)
    rw [hm, Option.map_some', Option.getD_some]
    simp only [metaCheck]
    exact List.all_eq_true.mpr
      (fun kv hkv => decide_eq_true (hcond tk.1 tk.2 htk m hm kv.1 kv.2 hkv))

/-- Witness for C3 at a concrete row and filter. -/
theorem dp_filter_python_and_semantics_witness :
    ∃ r, dp_filter_python [("metadata", [("k", FValue.str "v")])]
        [("metadata", [("k", FValue.str "v")])] = some r ∧
      (r.truthy = true ↔
        ∀ t kvs, (t, kvs) ∈ [("metadata", [("k", FValue.str "v")])] →
          ∀ m, alookup t [("metadata", [("k", FValue.str "v")])] = some m →
            ∀ k v, (k, v) ∈ kvs → alookup k m = some v) :=
  dp_filter_python_and_semantics _ _ (by decide)
    (by intro tk htk; rw [List.mem_singleton] at htk; subst htk; decide)

/-- C4: on a dataset holding ids `a` and `c`, requesting `[a, b, c]` raises
the count-mismatch error, but its message names all three requested ids —
`get_ids_that_does_not_exist` compares id strings against the integer row
indices, so no requested id is ever considered found. -/
theorem get_id_indices_names_all_requested_ids :
    get_id_indices [⟨"", "a", [], []⟩, ⟨"", "c", [], []⟩] ["a", "b", "c"]
      = .error (.valueError
          "The following ids: \x60a\x60, \x60b\x60, \x60c\x60 does not exist in the dataset") := by
  decide

/-- C5: a delegated search carrying a callable filter is not rejected — the
dead check `type(filter) == Callable` never matches, so the call delegates
(with the filter silently dropped from the tql fragment) instead of raising
the unsupported-combination error. -/
theorem search_callable_filter_not_rejected :
    DeepLakeVectorStore.search ⟨[row0], none, "python"⟩ true none none (some [1]) 4 "L2"
        none (some (.callable (fun _ => true))) (some "compute_engine") "embedding"
      = .ok (.delegated [1] "l2" [(0, row0)] 4 none "" "embedding" ⟨"compute_engine"⟩) :=
  rfl

/-- C6 counterexample: a store constructed with execution option `tensor_db`,
searched without supplying `exec_option` (so the parameter's declared default
`"python"` is passed), resolves to `python` and takes the local path — the
instance default does not govern the call. -/
theorem search_default_exec_option_overrides_instance :
    resolveExecOption search_exec_option_default "tensor_db" = "python" ∧
    DeepLakeVectorStore.search ⟨[row0], none, "tensor_db"⟩ true none none (some [1]) 4 "L2"
        none none search_exec_option_default "embedding"
      = .ok (.pythonSearch [(0, row0)] [1] [[1, 0]] "l2" 4) :=
  ⟨rfl, by decide⟩

/-- C6 (amended): the per-call `exec_option` governs whenever it is supplied
and non-empty, and the instance option applies when the argument is an
explicit `None`; but the parameter's declared default is `"python"`, so a
call omitting the argument resolves to `python`, not to the instance
option. -/
theorem search_exec_option_resolution :
    (∀ s instOption : String, s ≠ "" → resolveExecOption (some s) instOption = s) ∧
    (∀ instOption : String, resolveExecOption none instOption = instOption) ∧
    search_exec_option_default = some "python" := by
  refine ⟨fun s instOption hs => ?_, fun _ => rfl, rfl⟩
  simp only [resolveExecOption]
  rw [if_neg hs]

/-- Witness for the amended C6 at concrete option strings. -/
theorem search_exec_option_resolution_witness :
    resolveExecOption (some "tensor_db") "python" = "tensor_db" :=
  search_exec_option_resolution.1 "tensor_db" "python" (by decide)

/-- C7 counterexample: a supplied-but-empty filter dict is falsy, so passing
it together with a non-empty id list does not raise the mutual-exclusion
error — resolution proceeds through `get_id_indices` and succeeds. -/
theorem get_converted_ids_empty_dict_filter_no_error :
    get_converted_ids [⟨"", "a", [], []⟩] (some []) ["a"] = .ok [0] := by
  decide

/-- C7 (amended): `get_converted_ids` fails with the mutual-exclusion
`ValueError` when a non-empty (truthy) filter dict and a non-empty id list
are both supplied — a supplied-but-empty dict does not trigger it — and
otherwise resolves through `get_id_indices` when ids are given and through
`get_filtered_ids` when only a filter is given. -/
theorem get_converted_ids_dispatch (dataset : List Row) (f : Filter) (ids : List String)
    (hf : f ≠ []) (hids : ids ≠ []) :
    get_converted_ids dataset (some f) ids
        = .error (.valueError "Either filter or ids should be specified.") ∧
    get_converted_ids dataset none ids = get_id_indices dataset ids ∧
    get_converted_ids dataset (some f) [] = get_filtered_ids dataset (some f) := by
  have h1 : ids.isEmpty = false := by
    cases ids with
    | nil => exact absurd rfl hids
    | cons a l => rfl
  have h2 : pyTruthyFilter (some f) = true := by
    cases f with
    | nil => exact absurd rfl hf
    | cons a l => rfl
  refine ⟨?_, ?_, rfl⟩
  · simp [get_converted_ids, h1, h2]
  · simp [get_converted_ids, h1, pyTruthyFilter]

/-- Witness for the amended C7 at a concrete dataset, filter and id list. -/
theorem get_converted_ids_dispatch_witness :
    get_converted_ids [⟨"", "a", [], []⟩] (some [("t", [("k", FValue.str "v")])]) ["a"]
        = .error (.valueError "Either filter or ids should be specified.") ∧
    get_converted_ids [⟨"", "a", [], []⟩] none ["a"]
        = get_id_indices [⟨"", "a", [], []⟩] ["a"] ∧
    get_converted_ids [⟨"", "a", [], []⟩] (some [("t", [("k", FValue.str "v")])]) []
        = get_filtered_ids [⟨"", "a", [], []⟩] (some [("t", [("k", FValue.str "v")])]) :=
  get_converted_ids_dispatch _ _ _ (by decide) (by decide)

/-- C8: `exact_text_search` scores every matching row with the uniform unit
score; on zero matches it emits the non-fatal warning and returns an absent
index instead of failing, and on at least one match it returns the matching
rows' indices. -/
theorem exact_text_search_spec (view : ViewT) (query : String) :
    (exact_text_search view query).2.1
        = List.replicate (exact_text_search view query).1.length (1 : Rat) ∧
    ((exact_text_search view query).1.length = 0 →
      (exact_text_search view query).2.2.2 = true ∧
      (exact_text_search view query).2.2.1 = none) ∧
    ((exact_text_search view query).1.length ≠ 0 →
      (exact_text_search view query).2.2.2 = false ∧
      (exact_text_search view query).2.2.1
        = some ((exact_text_search view query).1.map Prod.fst)) := by
  by_cases h : (view.filter (fun ir => textMatches query ir.2)).length = 0
  · simp [exact_text_search, h]
  · simp [exact_text_search, h]

/-- Witness for C8: a zero-match call warns with an absent index, and a
matching call returns the matching index. -/
theorem exact_text_search_spec_witness :
    (exact_text_search ([] : ViewT) "q").2.2.2 = true ∧
    (exact_text_search [(0, row0)] "hello").2.2.1 = some [0] := by
  constructor
  · exact ((exact_text_search_spec [] "q").2.1 (by decide)).1
  · exact ((exact_text_search_spec [(0, row0)] "hello").2.2 (by decide)).2.trans (by decide)

/-- C9: with an empty id list and a supplied filter, `get_converted_ids`
does not raise the mutual-exclusion error — the truthiness check on `ids`
fails and resolution proceeds through the filter path. -/
theorem get_converted_ids_empty_ids_filter_path (dataset : List Row) (f : Filter) :
    get_converted_ids dataset (some f) [] = get_filtered_ids dataset (some f) :=
  rfl

/-- C10: a present but non-mapping (callable) filter is silently dropped by
`attribute_based_filtering_tql`: the view is returned unchanged with an empty
fragment and no error. -/
theorem attribute_based_filtering_tql_callable_dropped :
    ∀ (view : ViewT) (p : Row → Bool),
      attribute_based_filtering_tql view (some (.callable p)) = (view, "") :=
  fun _ _ => rfl

end DeepLake
